import Mathlib

/-!
# Em-Sensor-A device descriptor (`src/em_sensor_a.js`)

A shallow embedding of the external converter that describes the Emboard
`Em-Sensor-A` Zigbee device: the identity check `isEmboardDevice`, the
`genOnOff` decoder `convert`, the `endpoint` resolver and the asynchronous
`configure` routine.

JavaScript values are embedded as the type `JSValue`.  Side effects (calls of
`publish`, `console.log`, `console.error`, `device.getEndpoint` and
`endpoint.bind`) are recorded, in program order, in a trace of `Event`s, and an
entry point yields a `Run`: its trace together with the way it finished
(a returned value, or a thrown error; for the `async` function `configure` a
resolved or a rejected promise).
-/

namespace EmSensorA

set_option linter.unusedVariables false

/-! ## JavaScript values -/

/-- JavaScript values.  Numbers are the integer-valued ones (Zigbee attribute
values and endpoint numbers are integers); objects are their own enumerable
data properties, first binding of a key first. -/
inductive JSValue where
  | undefined : JSValue
  | null : JSValue
  | bool (b : Bool) : JSValue
  | num (n : Int) : JSValue
  | str (s : String) : JSValue
  | obj (props : List (String × JSValue)) : JSValue

/-- Errors a JavaScript evaluation can throw here. -/
inductive JSError where
  /-- A property of `null` or `undefined` was read. -/
  | typeError : JSError
  /-- The error value with which the host rejected a `bind` call. -/
  | bindError (reason : String) : JSError
  deriving DecidableEq

/-- JavaScript `ToBoolean`: `undefined`, `null`, `false`, `0` and the empty
string are falsy, everything else (every object included) is truthy. -/
def JSValue.truthy : JSValue → Bool
  | .undefined => false
  | .null => false
  | .bool b => b
  | .num n => n != 0
  | .str s => s != ""
  | .obj _ => true

/-- The value of a key in a property list (`undefined` when the key is not there). -/
def lookupProp (props : List (String × JSValue)) (key : String) : JSValue :=
  (props.lookup key).getD .undefined

/-- The property read `v.key` / `v[key]`: a `TypeError` on `null` and `undefined`,
the property of an object, and `undefined` on the other primitives (none of the
keys read by this program is defined on a primitive's wrapper). -/
def getProp (v : JSValue) (key : String) : Except JSError JSValue :=
  match v with
  | .undefined => .error .typeError
  | .null => .error .typeError
  | .obj props => .ok (lookupProp props key)
  | _ => .ok .undefined

/-- The call `data.hasOwnProperty(key)` on an attribute mapping. -/
def hasOwnProperty (data : List (String × JSValue)) (key : String) : Bool :=
  (data.lookup key).isSome

/-- Strict equality `v === s` against a string literal. -/
def strictEqStr (v : JSValue) (s : String) : Bool :=
  match v with
  | .str t => t == s
  | _ => false

/-- Strict equality `v === n` against a number literal. -/
def strictEqNum (v : JSValue) (n : Int) : Bool :=
  match v with
  | .num m => m == n
  | _ => false

/-- The abstract operation `ToString` that a template literal applies to an
interpolated value, as far as its completion goes (the text is not kept): it succeeds
on every primitive, and on an object it succeeds through the inherited
`Object.prototype.toString` unless the object has an own property `toString`; that
property is a data value here, so it is not callable, and neither it nor `valueOf`
yields a primitive: a `TypeError`. -/
def jsToString (v : JSValue) : Except JSError Unit :=
  match v with
  | .obj props => if (props.lookup "toString").isSome then .error .typeError else .ok ()
  | _ => .ok ()

/-! ## Effects -/

/-- The diagnostic lines of the program, with the values interpolated into them; a
line is printed only once `ToString` has succeeded on each of its values. -/
inductive LogLine where
  /-- The line "OnOff report - endpoint .. : .." of `convert`. -/
  | onOffReport (endpoint : JSValue) (state : Bool) : LogLine
  /-- The line "Skipping configuration for non-Emboard device: .. from .." of `configure`. -/
  | skipping (modelID manufacturerName : JSValue) : LogLine
  /-- The line "Bound genOnOff cluster on endpoint .." of `configure`. -/
  | bound (endpointId : Int) : LogLine
  /-- The line "Error binding endpoints: .." of `configure`. -/
  | errorBinding (error : JSError) : LogLine

/-- Observable effects, in program order. -/
inductive Event where
  /-- A call `publish(payload)`. -/
  | publish (payload : JSValue) : Event
  /-- A call of `console.log`. -/
  | consoleLog (line : LogLine) : Event
  /-- A call of `console.error`. -/
  | consoleError (line : LogLine) : Event
  /-- A call `device.getEndpoint(endpointId)`. -/
  | getEndpoint (endpointId : Int) : Event
  /-- A call `endpoint.bind(cluster, target)` on the endpoint `endpointId`. -/
  | bind (endpointId : Int) (cluster : String) (target : JSValue) : Event

/-- How an entry point finished, with the effects it had. -/
structure Run where
  /-- The effects, in program order. -/
  trace : List Event
  /-- The returned value (the value a promise resolved with), or the error thrown
  (the error a promise rejected with). -/
  outcome : Except JSError JSValue

/-- The payloads of the `publish` calls of a trace, in order. -/
def published (trace : List Event) : List JSValue :=
  trace.filterMap fun
    | .publish payload => some payload
    | _ => none

/-- The `bind` calls of a trace, in order: endpoint, cluster and target. -/
def bindRequests (trace : List Event) : List (Int × String × JSValue) :=
  trace.filterMap fun
    | .bind endpointId cluster target => some (endpointId, cluster, target)
    | _ => none

/-- The endpoints on which a trace calls `bind`, in order. -/
def bindsAttempted (trace : List Event) : List Int :=
  (bindRequests trace).map fun request => request.1

/-- The endpoints a trace asks the device for, in order. -/
def endpointsQueried (trace : List Event) : List Int :=
  trace.filterMap fun
    | .getEndpoint endpointId => some endpointId
    | _ => none

/-! ## The host's objects -/

/-- The `endpoint` member of a message. -/
structure Endpoint where
  /-- The endpoint number `msg.endpoint.ID`. -/
  ID : JSValue

/-- The message the host hands to a `fromZigbee` converter: the fields
`device`, `data` (the attribute mapping) and `endpoint.ID` that `convert` reads.
The host always supplies `data` and `endpoint` as objects, and the keys of `data`
are attribute names of the cluster, so that `data.hasOwnProperty` is the method
inherited from `Object.prototype`; `device` and `endpoint.ID` are arbitrary values. -/
structure Msg where
  /-- The field `msg.device`. -/
  device : JSValue
  /-- The field `msg.data`, attribute name to value. -/
  data : List (String × JSValue)
  /-- The field `msg.endpoint`. -/
  endpoint : Endpoint

/-- An endpoint object of the host: what its `bind(cluster, target)` does,
`.ok ()` when the promise resolves and `.error reason` when it rejects. -/
structure EndpointObj where
  /-- The outcome of `bind(cluster, target)`. -/
  bind : String → JSValue → Except String Unit

/-- The method `device.getEndpoint` of the host, a lookup that does not throw: the
endpoint object of a number, or `none` (JavaScript `undefined`) when the device does
not expose it. -/
structure DeviceMethods where
  /-- The result of `getEndpoint(endpointId)`. -/
  getEndpoint : Int → Option EndpointObj

/-! ## The program -/

/-- The function `isEmboardDevice`:
`device && device.modelID === 'Em-Sensor-A' && device.manufacturerName === 'Emboard.Co'`,
with the short-circuit semantics of `&&` (a falsy left operand is the result). -/
def isEmboardDevice (device : JSValue) : Except JSError JSValue :=
  if device.truthy then do
    let modelID ← getProp device "modelID"
    if strictEqStr modelID "Em-Sensor-A" then do
      let manufacturerName ← getProp device "manufacturerName"
      pure (.bool (strictEqStr manufacturerName "Emboard.Co"))
    else
      pure (.bool false)
  else
    pure device

/-- The decoder `fromZigbee[0].convert(model, msg, publish, options, meta)`; the
calls of `publish` are events of the trace.  The log line of line 36 interpolates the
endpoint ID and the state (a boolean) before anything is published. -/
def convert (model : JSValue) (msg : Msg) (options meta : JSValue) : Run :=
  match isEmboardDevice msg.device with
  | .error e => { trace := [], outcome := .error e }
  | .ok isEmboard =>
    if !isEmboard.truthy then
      { trace := [], outcome := .ok .undefined }
    else if hasOwnProperty msg.data "onOff" then
      let state := strictEqNum (lookupProp msg.data "onOff") 1
      let endpoint := msg.endpoint.ID
      match jsToString endpoint with
      | .error e => { trace := [], outcome := .error e }
      | .ok _ =>
        let logged := Event.consoleLog (.onOffReport endpoint state)
        if strictEqNum endpoint 10 then
          { trace := [logged, .publish (.obj [("button1", .bool state)])],
            outcome := .ok .undefined }
        else if strictEqNum endpoint 11 then
          { trace := [logged, .publish (.obj [("button2", .bool state)])],
            outcome := .ok .undefined }
        else if strictEqNum endpoint 8 then
          { trace := [logged,
              .publish (.obj [("state_green", .str (if state then "ON" else "OFF"))])],
            outcome := .ok .undefined }
        else if strictEqNum endpoint 9 then
          { trace := [logged,
              .publish (.obj [("state_red", .str (if state then "ON" else "OFF"))])],
            outcome := .ok .undefined }
        else
          { trace := [logged], outcome := .ok .undefined }
    else
      { trace := [], outcome := .ok .undefined }

/-- The resolver `endpoint(device)`. -/
def endpoint (device : JSValue) : Run :=
  match isEmboardDevice device with
  | .error e => { trace := [], outcome := .error e }
  | .ok isEmboard =>
    if !isEmboard.truthy then
      { trace := [], outcome := .ok (.obj []) }
    else
      { trace := [],
        outcome := .ok (.obj [("green", .num 8), ("red", .num 9),
                              ("button1", .num 10), ("button2", .num 11)]) }

/-- The constant `endpoints` of `configure`. -/
def endpoints : List Int := [8, 9, 10, 11]

/-- The loop `for (const endpointId of endpoints)` of `configure`, from the
endpoints still to visit: the effects, and the error thrown out of the loop
by a rejected `bind`, if any. -/
def bindLoop (device : DeviceMethods) (coordinatorEndpoint : JSValue) :
    List Int → List Event × Option JSError
  | [] => ([], none)
  | endpointId :: rest =>
    match device.getEndpoint endpointId with
    | none =>
      let r := bindLoop device coordinatorEndpoint rest
      (.getEndpoint endpointId :: r.1, r.2)
    | some ep =>
      match ep.bind "genOnOff" coordinatorEndpoint with
      | .error reason =>
        ([.getEndpoint endpointId, .bind endpointId "genOnOff" coordinatorEndpoint],
          some (.bindError reason))
      | .ok _ =>
        let r := bindLoop device coordinatorEndpoint rest
        (.getEndpoint endpointId :: .bind endpointId "genOnOff" coordinatorEndpoint ::
          .consoleLog (.bound endpointId) :: r.1, r.2)

/-- The routine `configure(device, coordinatorEndpoint, logger)`; `device` holds
the data properties of the device object and `methods` its `getEndpoint`.  The skip
notice of line 75 is built outside the `try` block: it reads `device.modelID` and
`device.manufacturerName` and converts each to a string, in that order, and an error
thrown there rejects the promise. -/
def configure (device : JSValue) (methods : DeviceMethods)
    (coordinatorEndpoint logger : JSValue) : Run :=
  match isEmboardDevice device with
  | .error e => { trace := [], outcome := .error e }
  | .ok isEmboard =>
    if !isEmboard.truthy then
      match getProp device "modelID" with
      | .error e => { trace := [], outcome := .error e }
      | .ok modelID =>
        match jsToString modelID with
        | .error e => { trace := [], outcome := .error e }
        | .ok _ =>
          match getProp device "manufacturerName" with
          | .error e => { trace := [], outcome := .error e }
          | .ok manufacturerName =>
            match jsToString manufacturerName with
            | .error e => { trace := [], outcome := .error e }
            | .ok _ =>
              { trace := [.consoleLog (.skipping modelID manufacturerName)],
                outcome := .ok .undefined }
    else
      match bindLoop methods coordinatorEndpoint endpoints with
      | (trace, none) => { trace := trace, outcome := .ok .undefined }
      | (trace, some error) =>
        { trace := trace ++ [.consoleError (.errorBinding error)],
          outcome := .ok .undefined }

/-! ## The specification's vocabulary -/

/-- The device matches: reading `device.modelID` yields exactly the string
"Em-Sensor-A" and reading `device.manufacturerName` exactly "Emboard.Co". -/
def Matches (device : JSValue) : Prop :=
  getProp device "modelID" = .ok (.str "Em-Sensor-A") ∧
    getProp device "manufacturerName" = .ok (.str "Emboard.Co")

/-- A device object with the identity of the Em-Sensor-A. -/
def emSensorA : JSValue :=
  .obj [("modelID", .str "Em-Sensor-A"), ("manufacturerName", .str "Emboard.Co")]

/-- A device object of another vendor. -/
def otherDevice : JSValue :=
  .obj [("modelID", .str "lumi.sensor"), ("manufacturerName", .str "LUMI")]

/-- The device exposes the endpoint: `getEndpoint` yields an object. -/
def exposes (methods : DeviceMethods) (endpointId : Int) : Bool :=
  (methods.getEndpoint endpointId).isSome

/-- The `genOnOff` bind to the coordinator on the endpoint does not fail
(vacuously so on an endpoint the device does not expose). -/
def bindOk (methods : DeviceMethods) (coordinatorEndpoint : JSValue) (endpointId : Int) : Bool :=
  match methods.getEndpoint endpointId with
  | none => true
  | some ep =>
    match ep.bind "genOnOff" coordinatorEndpoint with
    | .ok _ => true
    | .error _ => false

/-- The elements of a list up to and including the first one that fails `ok`. -/
def upToFirstFailure (ok : Int → Bool) : List Int → List Int
  | [] => []
  | endpointId :: rest =>
    if ok endpointId then endpointId :: upToFirstFailure ok rest else [endpointId]

/-- A device exposing all endpoints, every bind of which succeeds. -/
def healthyMethods : DeviceMethods :=
  { getEndpoint := fun _ => some { bind := fun _ _ => .ok () } }

/-- A device without endpoint 9; the bind on endpoint 8 fails, the others succeed. -/
def missingNineFailingEight : DeviceMethods :=
  { getEndpoint := fun endpointId =>
      if endpointId = 9 then none
      else if endpointId = 8 then some { bind := fun _ _ => .error "timeout" }
      else some { bind := fun _ _ => .ok () } }

/-- A device without endpoint 9, every bind of which succeeds. -/
def missingNine : DeviceMethods :=
  { getEndpoint := fun endpointId =>
      if endpointId = 9 then none else some { bind := fun _ _ => .ok () } }

/-- A device object of another vendor whose `modelID` is an object with an own
property `toString` that is not a function. -/
def unprintableDevice : JSValue :=
  .obj [("modelID", .obj [("toString", .num 1)]), ("manufacturerName", .str "x")]

/-- A matching device object that carries further properties. -/
def emSensorAWithAddress : JSValue :=
  .obj [("ieeeAddr", .str "0x00124b0001020304"), ("modelID", .str "Em-Sensor-A"),
    ("manufacturerName", .str "Emboard.Co"), ("networkAddress", .num 4660)]

/-- The key under which the feature of a role is published, as the specification pairs
them: the switches of the roles `green` and `red` publish `state_green` and
`state_red`, the binary sensors `button1` and `button2` publish under their own name. -/
def featureKeyOfRole (role : String) : String :=
  if role = "green" then "state_green"
  else if role = "red" then "state_red"
  else role

/-! ## Basic facts -/

theorem strictEqStr_iff (v : JSValue) (s : String) : strictEqStr v s = true ↔ v = .str s := by
  cases v <;> simp [strictEqStr]

theorem strictEqNum_iff (v : JSValue) (n : Int) : strictEqNum v n = true ↔ v = .num n := by
  cases v <;> simp [strictEqNum]

/-- A value on which `ToString` throws is an object, so it is no number. -/
theorem strictEqNum_of_jsToString_error {v : JSValue} {e : JSError}
    (h : jsToString v = .error e) (n : Int) : strictEqNum v n = false := by
  cases v <;> first | rfl | simp [jsToString] at h

theorem matches_emSensorA : Matches emSensorA := by
  constructor <;> rfl

/-- On a matching device the identity check yields `true`. -/
theorem isEmboardDevice_of_matches {device : JSValue} (h : Matches device) :
    isEmboardDevice device = .ok (.bool true) := by
  obtain ⟨h1, h2⟩ := h
  cases device <;> simp [getProp] at h1 h2
  case obj props =>
    simp [isEmboardDevice, JSValue.truthy, getProp, h1, h2, strictEqStr, bind, Except.bind, pure,
      Except.pure]

/-- On a device that does not match, the identity check yields a falsy value. -/
theorem isEmboardDevice_of_not_matches {device : JSValue} (h : ¬ Matches device) :
    ∃ r, isEmboardDevice device = .ok r ∧ r.truthy = false := by
  cases device with
  | undefined => exact ⟨_, rfl, rfl⟩
  | null => exact ⟨_, rfl, rfl⟩
  | bool b =>
    cases b
    · exact ⟨_, rfl, rfl⟩
    · exact ⟨_, rfl, rfl⟩
  | num n =>
    by_cases hn : n = 0
    · subst hn; exact ⟨_, rfl, rfl⟩
    · refine ⟨.bool false, ?_, rfl⟩
      simp [isEmboardDevice, JSValue.truthy, hn, getProp, strictEqStr, bind, Except.bind, pure,
        Except.pure]
  | str s =>
    by_cases hs : s = ""
    · subst hs; exact ⟨_, rfl, rfl⟩
    · refine ⟨.bool false, ?_, rfl⟩
      simp [isEmboardDevice, JSValue.truthy, hs, getProp, strictEqStr, bind, Except.bind, pure,
        Except.pure]
  | obj props =>
    by_cases h1 : strictEqStr (lookupProp props "modelID") "Em-Sensor-A" = true
    · refine ⟨.bool (strictEqStr (lookupProp props "manufacturerName") "Emboard.Co"), ?_, ?_⟩
      · simp [isEmboardDevice, JSValue.truthy, getProp, h1, bind, Except.bind, pure, Except.pure]
      · by_contra h2
        apply h
        simp only [JSValue.truthy, Bool.not_eq_false] at h2
        rw [strictEqStr_iff] at h1 h2
        exact ⟨by simp [getProp, h1], by simp [getProp, h2]⟩
    · refine ⟨.bool false, ?_, rfl⟩
      simp [isEmboardDevice, JSValue.truthy, getProp, h1, bind, Except.bind, pure, Except.pure]

/-- The identity check never throws. -/
theorem isEmboardDevice_ok (device : JSValue) : ∃ r, isEmboardDevice device = .ok r := by
  by_cases h : Matches device
  · exact ⟨_, isEmboardDevice_of_matches h⟩
  · obtain ⟨r, hr, _⟩ := isEmboardDevice_of_not_matches h
    exact ⟨r, hr⟩

/-- On a device that does not match, `convert` returns at once, without any effect. -/
theorem convert_of_not_matches (model options meta : JSValue) (msg : Msg)
    (h : ¬ Matches msg.device) :
    convert model msg options meta = { trace := [], outcome := .ok .undefined } := by
  obtain ⟨r, hr, hf⟩ := isEmboardDevice_of_not_matches h
  simp [convert, hr, hf]

/-- On a matching device with an `onOff` attribute, `convert` dispatches on the endpoint. -/
theorem published_convert_of_matches (model options meta : JSValue) (msg : Msg) (v : JSValue)
    (hdev : Matches msg.device) (hkey : msg.data.lookup "onOff" = some v) :
    published (convert model msg options meta).trace =
      if strictEqNum msg.endpoint.ID 10 then [.obj [("button1", .bool (strictEqNum v 1))]]
      else if strictEqNum msg.endpoint.ID 11 then [.obj [("button2", .bool (strictEqNum v 1))]]
      else if strictEqNum msg.endpoint.ID 8 then
        [.obj [("state_green", .str (if strictEqNum v 1 then "ON" else "OFF"))]]
      else if strictEqNum msg.endpoint.ID 9 then
        [.obj [("state_red", .str (if strictEqNum v 1 then "ON" else "OFF"))]]
      else [] := by
  simp only [convert, isEmboardDevice_of_matches hdev, JSValue.truthy, hasOwnProperty, hkey,
    lookupProp]
  cases hts : jsToString msg.endpoint.ID with
  | error e => simp [strictEqNum_of_jsToString_error hts, published]
  | ok u => split_ifs <;> simp_all [published]

/-- The devices the specification calls non-matching (absent ones included) are
those for which `Matches` fails. -/
theorem not_matches_of_differs {device : JSValue}
    (h : getProp device "modelID" ≠ .ok (.str "Em-Sensor-A") ∨
      getProp device "manufacturerName" ≠ .ok (.str "Emboard.Co")) : ¬ Matches device := by
  rintro ⟨h1, h2⟩
  rcases h with h | h
  · exact h h1
  · exact h h2

theorem not_matches_otherDevice : ¬ Matches otherDevice := by
  apply not_matches_of_differs
  left
  simp [otherDevice, getProp, lookupProp, List.lookup]

/-! ## The decoder -/

/-- C1: for every report whose device has a `modelID` other than "Em-Sensor-A" or a
`manufacturerName` other than "Emboard.Co", or whose device is absent (reading the
field throws), the decoder calls `publish` zero times, whatever the endpoint ID
and the attribute mapping. -/
theorem C1_convert_nonmatching_publishes_nothing (model options meta : JSValue) (msg : Msg)
    (h : getProp msg.device "modelID" ≠ .ok (.str "Em-Sensor-A") ∨
      getProp msg.device "manufacturerName" ≠ .ok (.str "Emboard.Co")) :
    published (convert model msg options meta).trace = [] := by
  rw [convert_of_not_matches model options meta msg (not_matches_of_differs h)]
  rfl

/-- C1 at a report of another vendor's device, and at a report without device,
both with `onOff = 1` on endpoint 10. -/
theorem C1_convert_nonmatching_witness :
    published (convert .undefined
        { device := otherDevice, data := [("onOff", .num 1)], endpoint := { ID := .num 10 } }
        .undefined .undefined).trace = [] ∧
      published (convert .undefined
        { device := .null, data := [("onOff", .num 1)], endpoint := { ID := .num 10 } }
        .undefined .undefined).trace = [] :=
  ⟨C1_convert_nonmatching_publishes_nothing _ _ _ _
      (Or.inl (by simp [otherDevice, getProp, lookupProp, List.lookup])),
    C1_convert_nonmatching_publishes_nothing _ _ _ _ (Or.inl (by simp [getProp]))⟩

/-- C2: for a matching device and a report whose `onOff` attribute has the value `v`,
the decoder publishes exactly `button1: b` on endpoint 10 and exactly `button2: b` on
endpoint 11, where `b` is the boolean `v === 1` (true exactly when `v` is the number 1);
so `onOff = 1` on endpoint 10 gives `button1: true` and `onOff = 0` gives
`button1: false`.  The published value is a boolean, never a string. -/
theorem C2_convert_buttons (model options meta : JSValue) (msg : Msg) (v : JSValue)
    (hdev : Matches msg.device) (hkey : msg.data.lookup "onOff" = some v) :
    (strictEqNum v 1 = true ↔ v = .num 1) ∧
    (msg.endpoint.ID = .num 10 →
      published (convert model msg options meta).trace =
        [.obj [("button1", .bool (strictEqNum v 1))]]) ∧
    (msg.endpoint.ID = .num 11 →
      published (convert model msg options meta).trace =
        [.obj [("button2", .bool (strictEqNum v 1))]]) ∧
    (msg.endpoint.ID = .num 10 → v = .num 1 →
      published (convert model msg options meta).trace = [.obj [("button1", .bool true)]]) ∧
    (msg.endpoint.ID = .num 10 → v = .num 0 →
      published (convert model msg options meta).trace = [.obj [("button1", .bool false)]]) ∧
    (msg.endpoint.ID = .num 10 ∨ msg.endpoint.ID = .num 11 →
      ∀ p ∈ published (convert model msg options meta).trace, ∀ key s,
        p ≠ .obj [(key, .str s)]) := by
  have key := published_convert_of_matches model options meta msg v hdev hkey
  refine ⟨strictEqNum_iff v 1, ?_, ?_, ?_, ?_, ?_⟩
  · intro h
    rw [key, h]; rfl
  · intro h
    rw [key, h]; rfl
  · intro h hv
    rw [key, h, hv]; rfl
  · intro h hv
    rw [key, h, hv]; rfl
  · rintro (h | h) p hp k s <;> rw [key, h] at hp <;>
      simp [strictEqNum] at hp <;> simp [hp]

/-- C2 at `onOff = 1` on endpoint 10 of the Em-Sensor-A. -/
theorem C2_convert_buttons_witness :
    published (convert .undefined
        { device := emSensorA, data := [("onOff", .num 1)], endpoint := { ID := .num 10 } }
        .undefined .undefined).trace = [.obj [("button1", .bool true)]] :=
  (C2_convert_buttons .undefined .undefined .undefined
    { device := emSensorA, data := [("onOff", .num 1)], endpoint := { ID := .num 10 } }
    (.num 1) matches_emSensorA rfl).2.1 rfl

/-- C3: for a matching device and a report whose `onOff` attribute has the value `v`,
the decoder publishes exactly `state_green: s` on endpoint 8 and exactly `state_red: s`
on endpoint 9, where `s` is the string "ON" if `v` is the number 1 and "OFF"
otherwise.  The published value is a string, never a boolean. -/
theorem C3_convert_leds (model options meta : JSValue) (msg : Msg) (v : JSValue)
    (hdev : Matches msg.device) (hkey : msg.data.lookup "onOff" = some v) :
    (msg.endpoint.ID = .num 8 → v = .num 1 →
      published (convert model msg options meta).trace = [.obj [("state_green", .str "ON")]]) ∧
    (msg.endpoint.ID = .num 8 → v ≠ .num 1 →
      published (convert model msg options meta).trace = [.obj [("state_green", .str "OFF")]]) ∧
    (msg.endpoint.ID = .num 9 → v = .num 1 →
      published (convert model msg options meta).trace = [.obj [("state_red", .str "ON")]]) ∧
    (msg.endpoint.ID = .num 9 → v ≠ .num 1 →
      published (convert model msg options meta).trace = [.obj [("state_red", .str "OFF")]]) ∧
    (msg.endpoint.ID = .num 8 ∨ msg.endpoint.ID = .num 9 →
      ∀ p ∈ published (convert model msg options meta).trace, ∀ key b,
        p ≠ .obj [(key, .bool b)]) := by
  have key := published_convert_of_matches model options meta msg v hdev hkey
  have hne : v ≠ .num 1 → strictEqNum v 1 = false := by
    intro hv
    rw [← Bool.not_eq_true, strictEqNum_iff]
    exact hv
  refine ⟨?_, ?_, ?_, ?_, ?_⟩
  · intro h hv
    rw [key, h, hv]; rfl
  · intro h hv
    rw [key, h, hne hv]; rfl
  · intro h hv
    rw [key, h, hv]; rfl
  · intro h hv
    rw [key, h, hne hv]; rfl
  · rintro (h | h) p hp k b <;> rw [key, h] at hp <;>
      simp [strictEqNum] at hp <;> simp [hp]

/-- C3 at `onOff = 1` and at `onOff = 0` on endpoint 8 of the Em-Sensor-A. -/
theorem C3_convert_leds_witness :
    published (convert .undefined
        { device := emSensorA, data := [("onOff", .num 1)], endpoint := { ID := .num 8 } }
        .undefined .undefined).trace = [.obj [("state_green", .str "ON")]] ∧
      published (convert .undefined
        { device := emSensorA, data := [("onOff", .num 0)], endpoint := { ID := .num 8 } }
        .undefined .undefined).trace = [.obj [("state_green", .str "OFF")]] :=
  ⟨(C3_convert_leds .undefined .undefined .undefined
      { device := emSensorA, data := [("onOff", .num 1)], endpoint := { ID := .num 8 } }
      (.num 1) matches_emSensorA rfl).1 rfl rfl,
    (C3_convert_leds .undefined .undefined .undefined
      { device := emSensorA, data := [("onOff", .num 0)], endpoint := { ID := .num 8 } }
      (.num 0) matches_emSensorA rfl).2.1 rfl (by simp)⟩

/-- C4: for a matching device, every attribute mapping (so every `onOff` value) and
every endpoint ID that is none of the numbers 8, 9, 10, 11, the decoder calls
`publish` zero times. -/
theorem C4_convert_other_endpoint_publishes_nothing (model options meta : JSValue) (msg : Msg)
    (hdev : Matches msg.device)
    (h8 : msg.endpoint.ID ≠ .num 8) (h9 : msg.endpoint.ID ≠ .num 9)
    (h10 : msg.endpoint.ID ≠ .num 10) (h11 : msg.endpoint.ID ≠ .num 11) :
    published (convert model msg options meta).trace = [] := by
  have e8 : strictEqNum msg.endpoint.ID 8 = false := by
    rw [← Bool.not_eq_true, strictEqNum_iff]; exact h8
  have e9 : strictEqNum msg.endpoint.ID 9 = false := by
    rw [← Bool.not_eq_true, strictEqNum_iff]; exact h9
  have e10 : strictEqNum msg.endpoint.ID 10 = false := by
    rw [← Bool.not_eq_true, strictEqNum_iff]; exact h10
  have e11 : strictEqNum msg.endpoint.ID 11 = false := by
    rw [← Bool.not_eq_true, strictEqNum_iff]; exact h11
  cases hk : msg.data.lookup "onOff" with
  | none =>
    simp [convert, isEmboardDevice_of_matches hdev, JSValue.truthy, hasOwnProperty, hk, published]
  | some v =>
    rw [published_convert_of_matches model options meta msg v hdev hk]
    simp [e8, e9, e10, e11]

/-- C4 at `onOff = 1` on endpoint 12 and on the endpoint ID "10" (a string) of the
Em-Sensor-A. -/
theorem C4_convert_other_endpoint_witness :
    published (convert .undefined
        { device := emSensorA, data := [("onOff", .num 1)], endpoint := { ID := .num 12 } }
        .undefined .undefined).trace = [] ∧
      published (convert .undefined
        { device := emSensorA, data := [("onOff", .num 1)], endpoint := { ID := .str "10" } }
        .undefined .undefined).trace = [] :=
  ⟨C4_convert_other_endpoint_publishes_nothing _ _ _ _ matches_emSensorA
      (by simp) (by simp) (by simp) (by simp),
    C4_convert_other_endpoint_publishes_nothing _ _ _ _ matches_emSensorA
      (by simp) (by simp) (by simp) (by simp)⟩

/-! ## The endpoint resolver and the identity check -/

/-- C5: the endpoint resolver returns the empty mapping for every device that does
not match, and for every matching device exactly the mapping
green: 8, red: 9, button1: 10, button2: 11, with no other key; it has no effect. -/
theorem C5_endpoint_resolver (device : JSValue) :
    (¬ Matches device → endpoint device = { trace := [], outcome := .ok (.obj []) }) ∧
    (Matches device → endpoint device =
      { trace := [],
        outcome := .ok (.obj [("green", .num 8), ("red", .num 9),
                              ("button1", .num 10), ("button2", .num 11)]) }) := by
  constructor
  · intro h
    obtain ⟨r, hr, hf⟩ := isEmboardDevice_of_not_matches h
    simp [endpoint, hr, hf]
  · intro h
    simp [endpoint, isEmboardDevice_of_matches h, JSValue.truthy]

/-- C5 at another vendor's device and at the Em-Sensor-A. -/
theorem C5_endpoint_resolver_witness :
    endpoint otherDevice = { trace := [], outcome := .ok (.obj []) } ∧
      endpoint emSensorA =
        { trace := [],
          outcome := .ok (.obj [("green", .num 8), ("red", .num 9),
                                ("button1", .num 10), ("button2", .num 11)]) } :=
  ⟨(C5_endpoint_resolver otherDevice).1 not_matches_otherDevice,
    (C5_endpoint_resolver emSensorA).2 matches_emSensorA⟩

/-- C6, as stated, fails: for the absent device `null` the identity check returns
`null` itself, which is not a boolean (and for `undefined` it returns `undefined`). -/
theorem C6_isEmboardDevice_null_not_boolean :
    isEmboardDevice .null = .ok .null ∧ isEmboardDevice .undefined = .ok .undefined ∧
      (¬ ∃ b, isEmboardDevice .null = .ok (.bool b)) ∧
      isEmboardDevice .null ≠ .ok (.bool false) := by
  refine ⟨rfl, rfl, ?_, ?_⟩
  · rintro ⟨b, hb⟩
    simp [isEmboardDevice, JSValue.truthy, pure, Except.pure] at hb
  · simp [isEmboardDevice, JSValue.truthy, pure, Except.pure]

/-- C6, amended: the identity check never throws; its result is truthy if and only
if `device.modelID` is exactly "Em-Sensor-A" and `device.manufacturerName` is exactly
"Emboard.Co"; the result is a boolean when the device is truthy (every object is),
and is the device itself, a falsy value, when the device is falsy (`null` for
`null`, `undefined` for `undefined`). -/
theorem C6_isEmboardDevice_truthy_iff_matches (device : JSValue) :
    ∃ r, isEmboardDevice device = .ok r ∧ (r.truthy = true ↔ Matches device) ∧
      r = (if device.truthy then .bool r.truthy else device) := by
  by_cases h : Matches device
  · refine ⟨.bool true, isEmboardDevice_of_matches h, by simp [JSValue.truthy, h], ?_⟩
    obtain ⟨h1, _⟩ := h
    cases device <;> simp [getProp, JSValue.truthy] at h1 ⊢
  · obtain ⟨r, hr, hf⟩ := isEmboardDevice_of_not_matches h
    refine ⟨r, hr, by simp [hf, h], ?_⟩
    by_cases ht : device.truthy = true
    · rw [if_pos ht, hf]
      simp only [isEmboardDevice, if_pos ht] at hr
      cases hm : getProp device "modelID" with
      | error e => simp [hm, bind, Except.bind] at hr
      | ok modelID =>
        simp only [hm, bind, Except.bind] at hr
        split_ifs at hr with h1
        · cases hn : getProp device "manufacturerName" with
          | error e => simp [hn] at hr
          | ok manufacturerName =>
            simp only [hn, pure, Except.pure, Except.ok.injEq] at hr
            rw [← hr] at hf ⊢
            simp only [JSValue.truthy] at hf
            rw [hf]
        · simp only [pure, Except.pure, Except.ok.injEq] at hr
          exact hr.symm
    · rw [if_neg ht]
      simp only [isEmboardDevice, if_neg ht, pure, Except.pure, Except.ok.injEq] at hr
      exact hr.symm

/-! ## The setup routine -/

/-- The `bind` calls of the loop: a `genOnOff` bind to the coordinator on each exposed
endpoint, in order, up to and including the first bind that fails. -/
theorem bindRequests_bindLoop (methods : DeviceMethods) (coordinatorEndpoint : JSValue)
    (ids : List Int) :
    bindRequests (bindLoop methods coordinatorEndpoint ids).1 =
      (upToFirstFailure (bindOk methods coordinatorEndpoint) (ids.filter (exposes methods))).map
        fun endpointId => (endpointId, "genOnOff", coordinatorEndpoint) := by
  induction ids with
  | nil => rfl
  | cons endpointId rest ih =>
    cases hg : methods.getEndpoint endpointId with
    | none =>
      simp only [bindLoop, hg, exposes, List.filter, Option.isSome]
      simpa [bindRequests, exposes] using ih
    | some ep =>
      cases hb : ep.bind "genOnOff" coordinatorEndpoint with
      | error reason =>
        simp [bindLoop, hg, hb, exposes, List.filter, upToFirstFailure, bindOk, bindRequests]
      | ok u =>
        simp only [bindLoop, hg, hb, exposes, List.filter, Option.isSome, upToFirstFailure,
          bindOk, if_true, List.map_cons]
        simpa [bindRequests, exposes] using ih

/-- The line logged by the `catch` block adds no `bind` call. -/
theorem bindRequests_append_consoleError (trace : List Event) (line : LogLine) :
    bindRequests (trace ++ [.consoleError line]) = bindRequests trace := by
  simp [bindRequests]

/-- On a matching device `configure` runs the loop, catches what it throws, and resolves. -/
theorem configure_of_matches (device : JSValue) (methods : DeviceMethods)
    (coordinatorEndpoint logger : JSValue) (h : Matches device) :
    bindRequests (configure device methods coordinatorEndpoint logger).trace =
        bindRequests (bindLoop methods coordinatorEndpoint endpoints).1 ∧
      (configure device methods coordinatorEndpoint logger).outcome = .ok .undefined := by
  simp only [configure, isEmboardDevice_of_matches h, JSValue.truthy]
  rcases hl : bindLoop methods coordinatorEndpoint endpoints with ⟨trace, _ | error⟩
  · simp
  · simp [bindRequests_append_consoleError]

/-- On a device that does not match, `configure` calls neither `getEndpoint` nor `bind`. -/
theorem configure_of_not_matches (device : JSValue) (methods : DeviceMethods)
    (coordinatorEndpoint logger : JSValue) (h : ¬ Matches device) :
    bindRequests (configure device methods coordinatorEndpoint logger).trace = [] ∧
      endpointsQueried (configure device methods coordinatorEndpoint logger).trace = [] := by
  obtain ⟨r, hr, hf⟩ := isEmboardDevice_of_not_matches h
  cases hgm : getProp device "modelID" with
  | error e => simp [configure, hr, hf, hgm, bindRequests, endpointsQueried]
  | ok modelID =>
    cases hsm : jsToString modelID with
    | error e => simp [configure, hr, hf, hgm, hsm, bindRequests, endpointsQueried]
    | ok u =>
      cases hgn : getProp device "manufacturerName" with
      | error e => simp [configure, hr, hf, hgm, hsm, hgn, bindRequests, endpointsQueried]
      | ok manufacturerName =>
        cases hsn : jsToString manufacturerName with
        | error e =>
          simp [configure, hr, hf, hgm, hsm, hgn, hsn, bindRequests, endpointsQueried]
        | ok w =>
          simp [configure, hr, hf, hgm, hsm, hgn, hsn, bindRequests, endpointsQueried]

/-- Without a failing bind, nothing is cut off. -/
theorem upToFirstFailure_of_all_ok (ok : Int → Bool) (ids : List Int)
    (h : ∀ endpointId ∈ ids, ok endpointId = true) : upToFirstFailure ok ids = ids := by
  induction ids with
  | nil => rfl
  | cons endpointId rest ih =>
    have h1 : ok endpointId = true := h endpointId (List.mem_cons_self _ _)
    have h2 : ∀ e ∈ rest, ok e = true := fun e he => h e (List.mem_cons_of_mem _ he)
    simp [upToFirstFailure, h1, ih h2]

/-- C7, as stated, fails: on the Em-Sensor-A without endpoint 9 whose bind on
endpoint 8 fails, `configure` attempts the bind on endpoint 8 only; the binds on
the endpoints 10 and 11 are not attempted. -/
theorem C7_configure_bind_failure_aborts :
    bindsAttempted (configure emSensorA missingNineFailingEight (.num 1) .undefined).trace = [8] ∧
      bindsAttempted (configure emSensorA missingNineFailingEight (.num 1) .undefined).trace
        ≠ [8, 10, 11] := by
  have h : bindsAttempted
      (configure emSensorA missingNineFailingEight (.num 1) .undefined).trace = [8] := by
    rw [bindsAttempted, (configure_of_matches _ _ _ _ matches_emSensorA).1,
      bindRequests_bindLoop]
    simp [endpoints, exposes, bindOk, missingNineFailingEight, upToFirstFailure, List.filter]
  exact ⟨h, by rw [h]; simp⟩

/-- C7, amended: for every matching device and every assignment of success or failure
to the bind calls, `configure` attempts a `genOnOff` bind on the endpoints among
8, 9, 10, 11 that the device exposes, in that order, up to and including the first
one whose bind fails; the failure is caught, so that `configure` resolves, but the
binds of the remaining endpoints are not attempted. -/
theorem C7_configure_binds_up_to_first_failure (device : JSValue) (methods : DeviceMethods)
    (coordinatorEndpoint logger : JSValue) (h : Matches device) :
    bindsAttempted (configure device methods coordinatorEndpoint logger).trace =
        upToFirstFailure (bindOk methods coordinatorEndpoint)
          ([8, 9, 10, 11].filter (exposes methods)) ∧
      (configure device methods coordinatorEndpoint logger).outcome = .ok .undefined := by
  obtain ⟨h1, h2⟩ := configure_of_matches device methods coordinatorEndpoint logger h
  refine ⟨?_, h2⟩
  rw [bindsAttempted, h1, bindRequests_bindLoop, List.map_map]
  simp [endpoints, Function.comp_def]

/-- C7, amended, on the Em-Sensor-A without endpoint 9: the binds attempted are those
on 8, 10 and 11 when no bind fails. -/
theorem C7_configure_binds_up_to_first_failure_witness :
    bindsAttempted (configure emSensorA missingNine (.num 1) .undefined).trace = [8, 10, 11] ∧
      (configure emSensorA missingNine (.num 1) .undefined).outcome = .ok .undefined :=
  ⟨(C7_configure_binds_up_to_first_failure emSensorA missingNine (.num 1) .undefined
      matches_emSensorA).1.trans
      (by simp [exposes, bindOk, missingNine, upToFirstFailure, List.filter]),
    (C7_configure_binds_up_to_first_failure emSensorA missingNine (.num 1) .undefined
      matches_emSensorA).2⟩

/-- The decoder returns (`undefined`) on every report whose endpoint ID can be
converted to a string for the log line. -/
theorem convert_returns (model options meta : JSValue) (msg : Msg)
    (hid : jsToString msg.endpoint.ID = .ok ()) :
    (convert model msg options meta).outcome = .ok .undefined := by
  obtain ⟨r, hr⟩ := isEmboardDevice_ok msg.device
  simp only [convert, hr, hid]
  split_ifs <;> rfl

/-- On a matching device and a report with an `onOff` attribute, an endpoint ID on which
`ToString` throws makes the decoder throw at its log line, before any effect. -/
theorem convert_throws_of_unprintable_endpoint (model options meta : JSValue) (msg : Msg)
    (v : JSValue) (e : JSError)
    (hdev : Matches msg.device) (hkey : msg.data.lookup "onOff" = some v)
    (hid : jsToString msg.endpoint.ID = .error e) :
    convert model msg options meta = { trace := [], outcome := .error e } := by
  simp [convert, isEmboardDevice_of_matches hdev, JSValue.truthy, hasOwnProperty, hkey, hid]

/-- The endpoint resolver always returns; it never throws. -/
theorem endpoint_returns (device : JSValue) : ∃ mapping, (endpoint device).outcome = .ok mapping := by
  obtain ⟨r, hr⟩ := isEmboardDevice_ok device
  simp only [endpoint, hr]
  split_ifs
  · exact ⟨_, rfl⟩
  · exact ⟨_, rfl⟩

/-- On a device other than `null` and `undefined` whose `modelID` and
`manufacturerName` can be converted to strings, `configure` resolves. -/
theorem configure_resolves_of_present (device : JSValue) (methods : DeviceMethods)
    (coordinatorEndpoint logger : JSValue) (h1 : device ≠ .null) (h2 : device ≠ .undefined)
    (hmodel : ∀ v, getProp device "modelID" = .ok v → jsToString v = .ok ())
    (hname : ∀ v, getProp device "manufacturerName" = .ok v → jsToString v = .ok ()) :
    (configure device methods coordinatorEndpoint logger).outcome = .ok .undefined := by
  by_cases hm : Matches device
  · exact (configure_of_matches device methods coordinatorEndpoint logger hm).2
  · obtain ⟨r, hr, hf⟩ := isEmboardDevice_of_not_matches hm
    have hex : ∀ key, ∃ v, getProp device key = .ok v := by
      intro key
      cases device <;> first | exact absurd rfl h1 | exact absurd rfl h2 | exact ⟨_, rfl⟩
    obtain ⟨m, hgm⟩ := hex "modelID"
    obtain ⟨n, hgn⟩ := hex "manufacturerName"
    simp [configure, hr, hf, hgm, hgn, hmodel m hgm, hname n hgn]

/-- C8, the failing input: on the absent devices `null` and `undefined`, `configure`
passes the identity guard into the skip branch, where reading `device.modelID` for the
log line throws a `TypeError`: the promise rejects, with no effect before. -/
theorem C8_configure_absent_device_rejects :
    configure .null healthyMethods (.num 1) .undefined =
        { trace := [], outcome := .error .typeError } ∧
      configure .undefined healthyMethods (.num 1) .undefined =
        { trace := [], outcome := .error .typeError } :=
  ⟨rfl, rfl⟩

/-- C9: for every matching device, when every bind call succeeds, the bind requests
issued by `configure` are exactly those on the list 8, 9, 10, 11 filtered to the
endpoints the device exposes, in that ascending order, each a bind of the cluster
"genOnOff" to the given coordinator endpoint. -/
theorem C9_configure_bind_requests (device : JSValue) (methods : DeviceMethods)
    (coordinatorEndpoint logger : JSValue) (h : Matches device)
    (hok : ∀ endpointId ∈ [8, 9, 10, 11], ∀ ep, methods.getEndpoint endpointId = some ep →
      ep.bind "genOnOff" coordinatorEndpoint = .ok ()) :
    bindRequests (configure device methods coordinatorEndpoint logger).trace =
      ([8, 9, 10, 11].filter (exposes methods)).map
        fun endpointId => (endpointId, "genOnOff", coordinatorEndpoint) := by
  rw [(configure_of_matches device methods coordinatorEndpoint logger h).1,
    bindRequests_bindLoop, upToFirstFailure_of_all_ok]
  · rfl
  · intro endpointId hmem
    have hin : endpointId ∈ ([8, 9, 10, 11] : List Int) := (List.mem_filter.mp hmem).1
    unfold bindOk
    cases hg : methods.getEndpoint endpointId with
    | none => rfl
    | some ep => simp [hok endpointId hin ep hg]

/-- C9 on the Em-Sensor-A without endpoint 9, all binds succeeding: the requests are the
`genOnOff` binds on 8, 10 and 11, in that order. -/
theorem C9_configure_bind_requests_witness :
    bindRequests (configure emSensorA missingNine (.num 1) .undefined).trace =
      [(8, "genOnOff", .num 1), (10, "genOnOff", .num 1), (11, "genOnOff", .num 1)] :=
  (C9_configure_bind_requests emSensorA missingNine (.num 1) .undefined matches_emSensorA
    (by
      intro endpointId _ ep hg
      simp only [missingNine] at hg
      split_ifs at hg
      cases hg
      rfl)).trans (by simp [exposes, missingNine, List.filter])

/-- C10, as stated, fails: the device `unprintableDevice` does not match and has both
fields, yet `configure` does not complete successfully on it.  The skip notice converts
`device.modelID` to a string outside the `try` block; here that throws a `TypeError`,
and the promise rejects. -/
theorem C10_configure_unprintable_modelID_rejects :
    getProp unprintableDevice "modelID" = .ok (.obj [("toString", .num 1)]) ∧
      getProp unprintableDevice "manufacturerName" = .ok (.str "x") ∧
      JSValue.obj [("toString", .num 1)] ≠ .str "Em-Sensor-A" ∧
      configure unprintableDevice healthyMethods (.num 1) .undefined =
        { trace := [], outcome := .error .typeError } ∧
      (configure unprintableDevice healthyMethods (.num 1) .undefined).outcome ≠
        .ok .undefined := by
  have hrun : configure unprintableDevice healthyMethods (.num 1) .undefined =
      { trace := [], outcome := .error .typeError } := rfl
  refine ⟨rfl, rfl, by simp, hrun, ?_⟩
  rw [hrun]
  simp

/-- C10, amended: for every device that does not match but whose `modelID` and
`manufacturerName` can be read, `configure` issues no bind request and does not ask the
device for any endpoint; when moreover both values can be converted to strings, it
completes successfully, its only effect being the skip notice. -/
theorem C10_configure_nonmatching_noop (device : JSValue) (methods : DeviceMethods)
    (coordinatorEndpoint logger modelID manufacturerName : JSValue)
    (hm : getProp device "modelID" = .ok modelID)
    (hn : getProp device "manufacturerName" = .ok manufacturerName)
    (h : modelID ≠ .str "Em-Sensor-A" ∨ manufacturerName ≠ .str "Emboard.Co") :
    bindRequests (configure device methods coordinatorEndpoint logger).trace = [] ∧
      endpointsQueried (configure device methods coordinatorEndpoint logger).trace = [] ∧
      (jsToString modelID = .ok () → jsToString manufacturerName = .ok () →
        configure device methods coordinatorEndpoint logger =
          { trace := [.consoleLog (.skipping modelID manufacturerName)],
            outcome := .ok .undefined }) := by
  have hnot : ¬ Matches device := by
    rintro ⟨h1, h2⟩
    rw [hm] at h1
    rw [hn] at h2
    rcases h with h | h
    · exact h (Except.ok.inj h1)
    · exact h (Except.ok.inj h2)
  obtain ⟨hbind, hquery⟩ :=
    configure_of_not_matches device methods coordinatorEndpoint logger hnot
  refine ⟨hbind, hquery, ?_⟩
  intro hsm hsn
  obtain ⟨r, hr, hf⟩ := isEmboardDevice_of_not_matches hnot
  simp [configure, hr, hf, hm, hn, hsm, hsn]

/-- C10, amended, at another vendor's device, all of whose endpoints would bind. -/
theorem C10_configure_nonmatching_noop_witness :
    bindRequests (configure otherDevice healthyMethods (.num 1) .undefined).trace = [] ∧
      endpointsQueried (configure otherDevice healthyMethods (.num 1) .undefined).trace = [] ∧
      configure otherDevice healthyMethods (.num 1) .undefined =
        { trace := [.consoleLog (.skipping (.str "lumi.sensor") (.str "LUMI"))],
          outcome := .ok .undefined } :=
  have key := C10_configure_nonmatching_noop otherDevice healthyMethods (.num 1) .undefined
    (.str "lumi.sensor") (.str "LUMI") rfl rfl (Or.inl (by simp))
  ⟨key.1, key.2.1, key.2.2 rfl rfl⟩

/-! ## The decoder: shape of the output, and what it depends on -/

/-- On a matching device, a report without `onOff` attribute has no effect. -/
theorem convert_of_no_onOff (model options meta : JSValue) (msg : Msg)
    (hdev : Matches msg.device) (hkey : msg.data.lookup "onOff" = none) :
    convert model msg options meta = { trace := [], outcome := .ok .undefined } := by
  simp [convert, isEmboardDevice_of_matches hdev, JSValue.truthy, hasOwnProperty, hkey]

/-- C11: for every report (any device, endpoint ID and attribute mapping) the decoder
calls `publish` at most once, and what it publishes is a single-key object of one of
the four shapes `button1: bool`, `button2: bool`, `state_green: "ON" | "OFF"`,
`state_red: "ON" | "OFF"`. -/
theorem C11_convert_publishes_at_most_one_update (model options meta : JSValue) (msg : Msg) :
    (published (convert model msg options meta).trace).length ≤ 1 ∧
    (published (convert model msg options meta).trace = [] ∨
      (∃ b, published (convert model msg options meta).trace = [.obj [("button1", .bool b)]]) ∨
      (∃ b, published (convert model msg options meta).trace = [.obj [("button2", .bool b)]]) ∨
      published (convert model msg options meta).trace = [.obj [("state_green", .str "ON")]] ∨
      published (convert model msg options meta).trace = [.obj [("state_green", .str "OFF")]] ∨
      published (convert model msg options meta).trace = [.obj [("state_red", .str "ON")]] ∨
      published (convert model msg options meta).trace = [.obj [("state_red", .str "OFF")]]) := by
  by_cases hdev : Matches msg.device
  · cases hk : msg.data.lookup "onOff" with
    | none =>
      rw [convert_of_no_onOff model options meta msg hdev hk]
      exact ⟨by simp [published], Or.inl rfl⟩
    | some v =>
      rw [published_convert_of_matches model options meta msg v hdev hk]
      split_ifs
      · exact ⟨by simp, Or.inr (Or.inl ⟨_, rfl⟩)⟩
      · exact ⟨by simp, Or.inr (Or.inr (Or.inl ⟨_, rfl⟩))⟩
      · exact ⟨by simp, Or.inr (Or.inr (Or.inr (Or.inl rfl)))⟩
      · exact ⟨by simp, Or.inr (Or.inr (Or.inr (Or.inr (Or.inl rfl))))⟩
      · exact ⟨by simp, Or.inr (Or.inr (Or.inr (Or.inr (Or.inr (Or.inl rfl)))))⟩
      · exact ⟨by simp, Or.inr (Or.inr (Or.inr (Or.inr (Or.inr (Or.inr rfl)))))⟩
      · exact ⟨by simp, Or.inl rfl⟩
  · rw [convert_of_not_matches model options meta msg hdev]
    exact ⟨by simp [published], Or.inl rfl⟩

/-- C12: for a matching device and every endpoint ID (8, 9, 10 and 11 included), a
report whose attribute mapping does not contain the key `onOff` makes the decoder
publish nothing, whatever other attributes it carries. -/
theorem C12_convert_without_onOff_publishes_nothing (model options meta : JSValue) (msg : Msg)
    (hdev : Matches msg.device) (hkey : msg.data.lookup "onOff" = none) :
    published (convert model msg options meta).trace = [] := by
  rw [convert_of_no_onOff model options meta msg hdev hkey]
  rfl

/-- C12 at a report of the Em-Sensor-A on endpoint 10 that carries other attributes only. -/
theorem C12_convert_without_onOff_witness :
    published (convert .undefined
        { device := emSensorA, data := [("onTime", .num 1), ("offWaitTime", .num 0)],
          endpoint := { ID := .num 10 } }
        .undefined .undefined).trace = [] :=
  C12_convert_without_onOff_publishes_nothing _ _ _ _ matches_emSensorA rfl

/-- C14: the `publish` calls of the decoder are a function only of whether the device
matches, of the value under the key `onOff` (or its absence) and of the endpoint ID:
two reports that agree on these three produce the same `publish` calls, whatever the
other attributes, the other properties of the device, `model`, `options` and `meta`.
The decoder reads nothing but its arguments, so no earlier report can matter. -/
theorem C14_convert_depends_on_match_onOff_endpoint
    (model1 model2 options1 options2 meta1 meta2 : JSValue) (msg1 msg2 : Msg)
    (hdev : Matches msg1.device ↔ Matches msg2.device)
    (hval : msg1.data.lookup "onOff" = msg2.data.lookup "onOff")
    (hid : msg1.endpoint.ID = msg2.endpoint.ID) :
    published (convert model1 msg1 options1 meta1).trace =
      published (convert model2 msg2 options2 meta2).trace := by
  by_cases h1 : Matches msg1.device
  · have h2 : Matches msg2.device := hdev.mp h1
    cases hk : msg1.data.lookup "onOff" with
    | none =>
      rw [convert_of_no_onOff model1 options1 meta1 msg1 h1 hk,
        convert_of_no_onOff model2 options2 meta2 msg2 h2 (hval ▸ hk)]
    | some v =>
      rw [published_convert_of_matches model1 options1 meta1 msg1 v h1 hk,
        published_convert_of_matches model2 options2 meta2 msg2 v h2 (hval ▸ hk), hid]
  · have h2 : ¬ Matches msg2.device := fun h => h1 (hdev.mpr h)
    rw [convert_of_not_matches model1 options1 meta1 msg1 h1,
      convert_of_not_matches model2 options2 meta2 msg2 h2]

/-- C14 at two reports of `onOff = 1` on endpoint 8 that differ in the device object,
the other attributes, `model`, `options` and `meta`. -/
theorem C14_convert_depends_witness :
    published (convert .undefined
        { device := emSensorA, data := [("onOff", .num 1)], endpoint := { ID := .num 8 } }
        .undefined .undefined).trace =
      published (convert (.str "Em-Sensor-A")
        { device := emSensorAWithAddress,
          data := [("onTime", .num 7), ("onOff", .num 1), ("globalSceneCtrl", .bool true)],
          endpoint := { ID := .num 8 } }
        (.obj [("legacy", .bool false)]) (.obj [("state", .obj [("button1", .bool true)])])).trace :=
  C14_convert_depends_on_match_onOff_endpoint _ _ _ _ _ _ _ _
    ⟨fun _ => ⟨rfl, rfl⟩, fun _ => matches_emSensorA⟩ rfl rfl

/-! ## The setup routine: which binds can happen -/

/-- What `upToFirstFailure` keeps is an initial segment of the list. -/
theorem upToFirstFailure_append (ok : Int → Bool) (ids : List Int) :
    ∃ rest, upToFirstFailure ok ids ++ rest = ids := by
  induction ids with
  | nil => exact ⟨[], rfl⟩
  | cons endpointId tail ih =>
    obtain ⟨rest, hrest⟩ := ih
    by_cases h : ok endpointId = true
    · exact ⟨rest, by simp [upToFirstFailure, h, hrest]⟩
    · exact ⟨tail, by simp [upToFirstFailure, h]⟩

/-- The endpoints bound by `configure`, for any device, are an initial segment of the
exposed ones among 8, 9, 10, 11. -/
theorem bindsAttempted_configure (device : JSValue) (methods : DeviceMethods)
    (coordinatorEndpoint logger : JSValue) :
    ∃ rest, bindsAttempted (configure device methods coordinatorEndpoint logger).trace ++ rest =
      [8, 9, 10, 11].filter (exposes methods) := by
  by_cases h : Matches device
  · obtain ⟨rest, hrest⟩ := upToFirstFailure_append (bindOk methods coordinatorEndpoint)
      ([8, 9, 10, 11].filter (exposes methods))
    refine ⟨rest, ?_⟩
    rw [bindsAttempted, (configure_of_matches device methods coordinatorEndpoint logger h).1,
      bindRequests_bindLoop, List.map_map]
    simpa [endpoints, Function.comp_def] using hrest
  · rw [bindsAttempted, (configure_of_not_matches device methods coordinatorEndpoint logger h).1]
    exact ⟨_, rfl⟩

/-- C13: for every device and every assignment of outcomes to the bind calls, the
sequence of endpoints on which `configure` attempts a bind is an initial segment of the
list 8, 9, 10, 11 filtered to the endpoints the device exposes: no endpoint is bound
more than once (a failed bind is not retried), no endpoint the device lacks is bound,
and no endpoint outside 8, 9, 10, 11 is bound. -/
theorem C13_configure_binds_initial_segment (device : JSValue) (methods : DeviceMethods)
    (coordinatorEndpoint logger : JSValue) :
    (∃ rest, bindsAttempted (configure device methods coordinatorEndpoint logger).trace ++ rest =
      [8, 9, 10, 11].filter (exposes methods)) ∧
    (bindsAttempted (configure device methods coordinatorEndpoint logger).trace).Nodup ∧
    (∀ endpointId ∈ bindsAttempted (configure device methods coordinatorEndpoint logger).trace,
      exposes methods endpointId = true ∧ endpointId ∈ ([8, 9, 10, 11] : List Int)) := by
  obtain ⟨rest, hrest⟩ := bindsAttempted_configure device methods coordinatorEndpoint logger
  have hnodup : (([8, 9, 10, 11] : List Int).filter (exposes methods)).Nodup :=
    List.Nodup.filter _ (by decide)
  refine ⟨⟨rest, hrest⟩, ?_, ?_⟩
  · rw [← hrest] at hnodup
    exact List.Nodup.of_append_left hnodup
  · intro endpointId hmem
    have hin : endpointId ∈ ([8, 9, 10, 11] : List Int).filter (exposes methods) := by
      rw [← hrest]
      exact List.mem_append_left _ hmem
    rw [List.mem_filter] at hin
    exact ⟨hin.2, hin.1⟩

/-- C13 on the Em-Sensor-A without endpoint 9 whose bind on endpoint 8 fails: the one
bind attempted, on endpoint 8, is on an exposed endpoint of the list. -/
theorem C13_configure_binds_initial_segment_witness :
    (8 : Int) ∈ bindsAttempted
        (configure emSensorA missingNineFailingEight (.num 1) .undefined).trace ∧
      exposes missingNineFailingEight 8 = true ∧ (8 : Int) ∈ ([8, 9, 10, 11] : List Int) :=
  have hmem : (8 : Int) ∈ bindsAttempted
      (configure emSensorA missingNineFailingEight (.num 1) .undefined).trace := by
    rw [bindsAttempted, (configure_of_matches _ _ _ _ matches_emSensorA).1,
      bindRequests_bindLoop]
    simp [endpoints, exposes, bindOk, missingNineFailingEight, upToFirstFailure, List.filter]
  ⟨hmem, (C13_configure_binds_initial_segment emSensorA missingNineFailingEight (.num 1)
    .undefined).2.2 8 hmem⟩

/-! ## Agreement of the endpoint tables, and strictness of the comparison -/

/-- C15: the three endpoint tables agree.  For a matching device the values of the
mapping returned by the endpoint resolver are exactly 8, 9, 10, 11; the decoder
publishes on no other endpoint ID, and on each of these, given an `onOff` attribute,
it publishes one update under the key of the role the resolver maps to that endpoint
(`green` to `state_green`, `red` to `state_red`, `button1` and `button2` to
themselves); `configure` binds no other endpoint, and binds exactly 8, 9, 10, 11 on a
device that exposes them all and whose binds succeed. -/
theorem C15_endpoint_tables_agree (device : JSValue) (h : Matches device) :
    ∃ mapping, (endpoint device).outcome = .ok (.obj mapping) ∧
      mapping.map (fun entry => entry.2) = [.num 8, .num 9, .num 10, .num 11] ∧
      (∀ model options meta data endpointId,
        published (convert model
            { device := device, data := data, endpoint := { ID := endpointId } }
            options meta).trace ≠ [] →
          endpointId ∈ mapping.map (fun entry => entry.2)) ∧
      (∀ role endpointId, (role, endpointId) ∈ mapping →
        ∀ model options meta data v, data.lookup "onOff" = some v →
          ∃ value, published (convert model
              { device := device, data := data, endpoint := { ID := endpointId } }
              options meta).trace = [.obj [(featureKeyOfRole role, value)]]) ∧
      (∀ methods coordinatorEndpoint logger,
        ∀ endpointId ∈ bindsAttempted
            (configure device methods coordinatorEndpoint logger).trace,
          JSValue.num endpointId ∈ mapping.map (fun entry => entry.2)) ∧
      (∀ coordinatorEndpoint logger,
        bindsAttempted (configure device healthyMethods coordinatorEndpoint logger).trace =
          [8, 9, 10, 11]) := by
  refine ⟨[("green", .num 8), ("red", .num 9), ("button1", .num 10), ("button2", .num 11)],
    ?_, rfl, ?_, ?_, ?_, ?_⟩
  · simp [endpoint, isEmboardDevice_of_matches h, JSValue.truthy]
  · intro model options meta data endpointId hpub
    by_contra hout
    apply hpub
    simp only [List.map_cons, List.map_nil, List.mem_cons, List.mem_singleton, List.not_mem_nil,
      or_false, not_or] at hout
    obtain ⟨h8, h9, h10, h11⟩ := hout
    cases hk : data.lookup "onOff" with
    | none =>
      rw [convert_of_no_onOff model options meta _ h hk]
      rfl
    | some v =>
      rw [published_convert_of_matches model options meta _ v h hk]
      have e8 : strictEqNum endpointId 8 = false := by
        rw [← Bool.not_eq_true, strictEqNum_iff]; exact h8
      have e9 : strictEqNum endpointId 9 = false := by
        rw [← Bool.not_eq_true, strictEqNum_iff]; exact h9
      have e10 : strictEqNum endpointId 10 = false := by
        rw [← Bool.not_eq_true, strictEqNum_iff]; exact h10
      have e11 : strictEqNum endpointId 11 = false := by
        rw [← Bool.not_eq_true, strictEqNum_iff]; exact h11
      simp [e8, e9, e10, e11]
  · intro role endpointId hmem model options meta data v hk
    rw [published_convert_of_matches model options meta _ v h hk]
    simp only [List.mem_cons, List.mem_singleton, List.not_mem_nil, or_false, Prod.mk.injEq]
      at hmem
    rcases hmem with ⟨hr, he⟩ | ⟨hr, he⟩ | ⟨hr, he⟩ | ⟨hr, he⟩ <;> subst hr <;> subst he
    · exact ⟨_, by simp [strictEqNum, featureKeyOfRole]; rfl⟩
    · exact ⟨_, by simp [strictEqNum, featureKeyOfRole]; rfl⟩
    · exact ⟨_, by simp [strictEqNum, featureKeyOfRole]; rfl⟩
    · exact ⟨_, by simp [strictEqNum, featureKeyOfRole]; rfl⟩
  · intro methods coordinatorEndpoint logger endpointId hmem
    obtain ⟨rest, hrest⟩ := bindsAttempted_configure device methods coordinatorEndpoint logger
    have hin : endpointId ∈ ([8, 9, 10, 11] : List Int).filter (exposes methods) := by
      rw [← hrest]
      exact List.mem_append_left _ hmem
    have hlist : endpointId ∈ ([8, 9, 10, 11] : List Int) := (List.mem_filter.mp hin).1
    simp only [List.mem_cons, List.mem_singleton, List.not_mem_nil, or_false] at hlist
    rcases hlist with hx | hx | hx | hx <;> subst hx <;> simp
  · intro coordinatorEndpoint logger
    rw [bindsAttempted, (configure_of_matches device healthyMethods coordinatorEndpoint logger h).1,
      bindRequests_bindLoop]
    simp [endpoints, exposes, bindOk, healthyMethods, upToFirstFailure, List.filter]

/-- C15 at the Em-Sensor-A: the resolver's values are 8, 9, 10, 11, and these are the
endpoints `configure` binds on a device all of whose binds succeed. -/
theorem C15_endpoint_tables_agree_witness :
    ∃ mapping, (endpoint emSensorA).outcome = .ok (.obj mapping) ∧
      mapping.map (fun entry => entry.2) = [.num 8, .num 9, .num 10, .num 11] ∧
      bindsAttempted (configure emSensorA healthyMethods (.num 1) .undefined).trace =
        [8, 9, 10, 11] :=
  match C15_endpoint_tables_agree emSensorA matches_emSensorA with
  | ⟨mapping, hres, hvalues, _, _, _, hall⟩ => ⟨mapping, hres, hvalues, hall (.num 1) .undefined⟩

/-- C16: the `onOff` comparison is strict.  For a matching device, every `onOff` value
other than the number 1 decodes to the state false: `false` is published for a button
(endpoints 10, 11) and "OFF" for an LED (endpoints 8, 9); only the number 1 decodes to
`true` and "ON". -/
theorem C16_onOff_comparison_strict (model options meta : JSValue) (msg : Msg) (v : JSValue)
    (hdev : Matches msg.device) (hkey : msg.data.lookup "onOff" = some v) :
    (v ≠ .num 1 →
      (msg.endpoint.ID = .num 10 →
        published (convert model msg options meta).trace = [.obj [("button1", .bool false)]]) ∧
      (msg.endpoint.ID = .num 11 →
        published (convert model msg options meta).trace = [.obj [("button2", .bool false)]]) ∧
      (msg.endpoint.ID = .num 8 →
        published (convert model msg options meta).trace = [.obj [("state_green", .str "OFF")]]) ∧
      (msg.endpoint.ID = .num 9 →
        published (convert model msg options meta).trace = [.obj [("state_red", .str "OFF")]])) ∧
    (v = .num 1 →
      (msg.endpoint.ID = .num 10 →
        published (convert model msg options meta).trace = [.obj [("button1", .bool true)]]) ∧
      (msg.endpoint.ID = .num 11 →
        published (convert model msg options meta).trace = [.obj [("button2", .bool true)]]) ∧
      (msg.endpoint.ID = .num 8 →
        published (convert model msg options meta).trace = [.obj [("state_green", .str "ON")]]) ∧
      (msg.endpoint.ID = .num 9 →
        published (convert model msg options meta).trace = [.obj [("state_red", .str "ON")]])) := by
  have key := published_convert_of_matches model options meta msg v hdev hkey
  constructor
  · intro hv
    have hs : strictEqNum v 1 = false := by
      rw [← Bool.not_eq_true, strictEqNum_iff]; exact hv
    refine ⟨?_, ?_, ?_, ?_⟩ <;> intro hid <;> rw [key, hid, hs] <;> rfl
  · intro hv
    refine ⟨?_, ?_, ?_, ?_⟩ <;> intro hid <;> rw [key, hid, hv] <;> rfl

/-- C16 at the `onOff` values `true`, "1" and 2, none of which is the number 1: a button
reports `false` and an LED "OFF"; the number 1 gives "ON". -/
theorem C16_onOff_comparison_strict_witness :
    published (convert .undefined
        { device := emSensorA, data := [("onOff", .bool true)], endpoint := { ID := .num 10 } }
        .undefined .undefined).trace = [.obj [("button1", .bool false)]] ∧
      published (convert .undefined
        { device := emSensorA, data := [("onOff", .str "1")], endpoint := { ID := .num 11 } }
        .undefined .undefined).trace = [.obj [("button2", .bool false)]] ∧
      published (convert .undefined
        { device := emSensorA, data := [("onOff", .num 2)], endpoint := { ID := .num 8 } }
        .undefined .undefined).trace = [.obj [("state_green", .str "OFF")]] ∧
      published (convert .undefined
        { device := emSensorA, data := [("onOff", .num 1)], endpoint := { ID := .num 9 } }
        .undefined .undefined).trace = [.obj [("state_red", .str "ON")]] :=
  ⟨((C16_onOff_comparison_strict .undefined .undefined .undefined
      { device := emSensorA, data := [("onOff", .bool true)], endpoint := { ID := .num 10 } }
      (.bool true) matches_emSensorA rfl).1 (by simp)).1 rfl,
    ((C16_onOff_comparison_strict .undefined .undefined .undefined
      { device := emSensorA, data := [("onOff", .str "1")], endpoint := { ID := .num 11 } }
      (.str "1") matches_emSensorA rfl).1 (by simp)).2.1 rfl,
    ((C16_onOff_comparison_strict .undefined .undefined .undefined
      { device := emSensorA, data := [("onOff", .num 2)], endpoint := { ID := .num 8 } }
      (.num 2) matches_emSensorA rfl).1 (by simp)).2.2.1 rfl,
    ((C16_onOff_comparison_strict .undefined .undefined .undefined
      { device := emSensorA, data := [("onOff", .num 1)], endpoint := { ID := .num 9 } }
      (.num 1) matches_emSensorA rfl).2 rfl).2.2.2 rfl⟩

end EmSensorA
